import Mathlib

/-!
Shallow embedding of the react-native-voice-vosk recognition module.

The repository implements offline streaming speech recognition for React
Native, with one native module per platform: `VoiceVoskModule` (Kotlin,
Android) and `VoiceVosk` (Objective-C, iOS).  Both hold the same logical
state: an opaque Vosk model/recognizer pair, flags `isModelInitialized` and
`isListening`, a configured sample rate, and the speech-boundary detector
fields `speechStartDetected` / `lastPartialResult`.

External collaborators (the Vosk engine, the platform audio stack, the
filesystem, permission checks) are modelled as explicit oracle parameters;
bridge commands become pure functions from state and oracles to a new state,
a promise outcome, and the list of events delivered to the host.
-/

namespace VoiceVosk

/-- Events delivered to the host application through the event emitter. -/
inductive VoskEvent where
  | onResult (text : String)
  | onFinalResult (text : String)
  | onPartialResult (text : String)
  | onSpeechStart
  | onSpeechEnd
  | onError (message : String)
  | onTimeout
deriving DecidableEq

/-- Outcome of a bridge command: promise resolution (boolean payload) or
rejection with an error code (the first argument of `promise.reject` /
`reject(...)` in the source). -/
inductive Outcome where
  | resolved (value : Bool)
  | rejected (code : String)
deriving DecidableEq

/-- Configuration map passed to `initModel`.  `getString("modelPath")` may
return null, hence `Option String`; the sample rate is optional and the
grammar string is forwarded opaquely to the engine. -/
structure VoskConfig where
  modelPath : Option String
  sampleRate : Option ℚ
  grammar : Option String
deriving DecidableEq

/-- Kotlin `String?.isNullOrEmpty()`. -/
def isNullOrEmpty : Option String → Bool
  | none => true
  | some s => s.data.isEmpty

/-- Speech boundary detector state: the `speechStartDetected` and
`lastPartialResult` fields present in both native modules. -/
structure BoundaryState where
  speechStartDetected : Bool
  lastPartialResult : Option String
deriving DecidableEq

/-- Kotlin `String.isBlank()`: every character is whitespace (so it is true
on the empty string and on whitespace-only strings). -/
def kotlinIsBlank (s : String) : Bool := s.data.all Char.isWhitespace

/-- NSString `length`, modelled as the character count (zero iff empty). -/
def nsLength (s : String) : Nat := s.data.length

/-- Objective-C messaging a nil `NSString` with `length` yields 0. -/
def nsLengthOpt : Option String → Nat
  | none => 0
  | some s => nsLength s

/-- Kotlin `lastPartialResult?.isNotBlank() == true` (false when null). -/
def lastNotBlank (st : BoundaryState) : Bool :=
  match st.lastPartialResult with
  | none => false
  | some l => !(kotlinIsBlank l)

namespace Android

/-- Kotlin `detectSpeechStart`: if no speech start has been detected and the
partial result is not blank, set the flag and emit `onSpeechStart`. -/
def detectSpeechStart (st : BoundaryState) (p : String) :
    BoundaryState × List VoskEvent :=
  if st.speechStartDetected = false ∧ kotlinIsBlank p = false then
    ({ st with speechStartDetected := true }, [VoskEvent.onSpeechStart])
  else (st, [])

/-- Kotlin `detectSpeechEnd`: if speech start was detected, the partial is
blank and the last stored partial was non-blank, clear the flag and emit
`onSpeechEnd`; in every call, store the partial as `lastPartialResult`. -/
def detectSpeechEnd (st : BoundaryState) (p : String) :
    BoundaryState × List VoskEvent :=
  if st.speechStartDetected = true ∧ kotlinIsBlank p = true ∧
      lastNotBlank st = true then
    ({ st with speechStartDetected := false, lastPartialResult := some p },
      [VoskEvent.onSpeechEnd])
  else ({ st with lastPartialResult := some p }, [])

/-- The boundary update performed by `onPartialResult` on Android:
`detectSpeechStart` followed by `detectSpeechEnd`. -/
def updateBoundary (st : BoundaryState) (p : String) :
    BoundaryState × List VoskEvent :=
  let r1 := detectSpeechStart st p
  let r2 := detectSpeechEnd r1.1 p
  (r2.1, r1.2 ++ r2.2)

/-- Feed a sequence of partial hypotheses through the Android boundary
detector, collecting the boundary events emitted at each element. -/
def runPartials (st : BoundaryState) : List String → List (List VoskEvent)
  | [] => []
  | p :: r =>
    let u := updateBoundary st p
    u.2 :: runPartials u.1 r

end Android

namespace Ios

/-- Objective-C `detectSpeechStart:`: if no speech start has been detected
and the partial has non-zero length, set the flag and emit `onSpeechStart`. -/
def detectSpeechStart (st : BoundaryState) (p : String) :
    BoundaryState × List VoskEvent :=
  if st.speechStartDetected = false ∧ nsLength p ≠ 0 then
    ({ st with speechStartDetected := true }, [VoskEvent.onSpeechStart])
  else (st, [])

/-- Objective-C `detectSpeechEnd:`: if speech start was detected, the partial
has zero length and the stored last partial has non-zero length, clear the
flag and emit `onSpeechEnd`; in every call, store the partial. -/
def detectSpeechEnd (st : BoundaryState) (p : String) :
    BoundaryState × List VoskEvent :=
  if st.speechStartDetected = true ∧ nsLength p = 0 ∧
      nsLengthOpt st.lastPartialResult ≠ 0 then
    ({ st with speechStartDetected := false, lastPartialResult := some p },
      [VoskEvent.onSpeechEnd])
  else ({ st with lastPartialResult := some p }, [])

/-- The boundary update performed by `handlePartialResult:` on iOS:
`detectSpeechStart:` followed by `detectSpeechEnd:`. -/
def updateBoundary (st : BoundaryState) (p : String) :
    BoundaryState × List VoskEvent :=
  let r1 := detectSpeechStart st p
  let r2 := detectSpeechEnd r1.1 p
  (r2.1, r1.2 ++ r2.2)

/-- Feed a sequence of partial hypotheses through the iOS boundary detector,
collecting the boundary events emitted at each element. -/
def runPartials (st : BoundaryState) : List String → List (List VoskEvent)
  | [] => []
  | p :: r =>
    let u := updateBoundary st p
    u.2 :: runPartials u.1 r

end Ios

/-- Specification form of the amended C1 for the Android detector, written as
a single if / else-if / else over blankness tests. -/
def boundarySpecAndroid (st : BoundaryState) (p : String) :
    BoundaryState × List VoskEvent :=
  if st.speechStartDetected = false ∧ kotlinIsBlank p = false then
    ({ st with speechStartDetected := true, lastPartialResult := some p },
      [VoskEvent.onSpeechStart])
  else if st.speechStartDetected = true ∧ kotlinIsBlank p = true ∧
      lastNotBlank st = true then
    ({ st with speechStartDetected := false, lastPartialResult := some p },
      [VoskEvent.onSpeechEnd])
  else ({ st with lastPartialResult := some p }, [])

/-- Specification form of the amended C1 for the iOS detector, written as a
single if / else-if / else over zero-length tests. -/
def boundarySpecIos (st : BoundaryState) (p : String) :
    BoundaryState × List VoskEvent :=
  if st.speechStartDetected = false ∧ nsLength p ≠ 0 then
    ({ st with speechStartDetected := true, lastPartialResult := some p },
      [VoskEvent.onSpeechStart])
  else if st.speechStartDetected = true ∧ nsLength p = 0 ∧
      nsLengthOpt st.lastPartialResult ≠ 0 then
    ({ st with speechStartDetected := false, lastPartialResult := some p },
      [VoskEvent.onSpeechEnd])
  else ({ st with lastPartialResult := some p }, [])

namespace Android

/-- Possible outcomes of the external model/recognizer construction performed
by `initModel` on Android (the Vosk `Model`/`Recognizer` constructors and
`StorageService.unpack` are external library calls, supplied as an oracle):
direct load succeeds; direct load throws `IOException` and the asset unpack
succeeds; the unpack succeeds but recognizer construction throws; the unpack
fails; or some other exception reaches the outer catch. -/
inductive LoadOutcome where
  | success
  | unpackSuccess
  | unpackRecogFail (message : String)
  | unpackFail (message : String)
  | initExc (message : String)
deriving DecidableEq

/-- State of the Android `VoiceVoskModule`: nullable native handles are
modelled as presence flags, plus the module's flags, sample rate and the
boundary-detector fields. -/
structure ModuleState where
  model : Bool
  recognizer : Bool
  isModelInitialized : Bool
  isListening : Bool
  sampleRate : ℚ
  speechService : Bool
  speechStreamService : Bool
  boundary : BoundaryState
deriving DecidableEq

/-- Initial field values of `VoiceVoskModule`: all handles null, flags false,
sample rate 16000. -/
def initialState : ModuleState :=
  { model := false, recognizer := false, isModelInitialized := false,
    isListening := false, sampleRate := 16000, speechService := false,
    speechStreamService := false, boundary := ⟨false, none⟩ }

/-- Kotlin `initModel`: first overwrite the sample rate when the config has
one, then reject `INVALID_MODEL_PATH` on a null/empty model path; otherwise
null out the old model/recognizer and clear `isModelInitialized`, then build
the new model and recognizer according to the load oracle. -/
def initModel (config : VoskConfig) (load : LoadOutcome) (s : ModuleState) :
    ModuleState × Outcome :=
  let s1 := match config.sampleRate with
    | some r => { s with sampleRate := r }
    | none => s
  if isNullOrEmpty config.modelPath then
    (s1, Outcome.rejected "INVALID_MODEL_PATH")
  else
    let s2 := { s1 with model := false, recognizer := false,
                        isModelInitialized := false }
    match load with
    | LoadOutcome.success =>
      ({ s2 with model := true, recognizer := true,
                 isModelInitialized := true }, Outcome.resolved true)
    | LoadOutcome.unpackSuccess =>
      ({ s2 with model := true, recognizer := true,
                 isModelInitialized := true }, Outcome.resolved true)
    | LoadOutcome.unpackRecogFail _ =>
      (s2, Outcome.rejected "RECOGNIZER_INIT_FAILED")
    | LoadOutcome.unpackFail _ =>
      (s2, Outcome.rejected "MODEL_LOAD_FAILED")
    | LoadOutcome.initExc _ =>
      (s2, Outcome.rejected "INIT_ERROR")

/-- Kotlin `isModelInitialized` command: resolves the flag. -/
def isModelInitializedCmd (s : ModuleState) : Outcome :=
  Outcome.resolved s.isModelInitialized

/-- Kotlin `stopListeningInternal`: stop and drop the speech service, clear
`isListening` and reset the boundary-detector fields. -/
def stopListeningInternal (s : ModuleState) : ModuleState :=
  { s with speechService := false, isListening := false,
           boundary := ⟨false, none⟩ }

/-- Kotlin `releaseModel`: stop listening, close and null the recognizer and
the model, clear `isModelInitialized`, resolve true.  The handle closes are
null-safe, so the pure embedding never reaches the catch branch. -/
def releaseModel (s : ModuleState) : ModuleState × Outcome :=
  let s1 := stopListeningInternal s
  ({ s1 with recognizer := false, model := false,
             isModelInitialized := false }, Outcome.resolved true)

/-- Kotlin `startListening`: guard on `isModelInitialized`, then on the
microphone permission (external oracle `perm`); then stop any prior session,
reject `RECOGNIZER_NULL` if the recognizer is null, and start the platform
`SpeechService` (external oracle `engineOk`; on an `IOException` the service
assignment does not happen).  On success the boundary state is reset,
`isListening` becomes true and the promise resolves. -/
def startListening (perm engineOk : Bool) (s : ModuleState) :
    ModuleState × Outcome :=
  if s.isModelInitialized = false then
    (s, Outcome.rejected "MODEL_NOT_INITIALIZED")
  else if perm = false then
    (s, Outcome.rejected "PERMISSION_DENIED")
  else
    let s1 := stopListeningInternal s
    if s1.recognizer = false then
      (s1, Outcome.rejected "RECOGNIZER_NULL")
    else if engineOk = false then
      (s1, Outcome.rejected "START_LISTENING_ERROR")
    else
      ({ s1 with speechService := true, boundary := ⟨false, none⟩,
                 isListening := true }, Outcome.resolved true)

/-- Kotlin `stopListening`: delegates to `stopListeningInternal` and
resolves. -/
def stopListening (s : ModuleState) : ModuleState × Outcome :=
  (stopListeningInternal s, Outcome.resolved true)

/-- Kotlin `setPause`: resolves when a speech service is active (the pause
flag lives inside the external service), rejects `SERVICE_NOT_ACTIVE`
otherwise; the module state is untouched either way. -/
def setPause (_paused : Bool) (s : ModuleState) : ModuleState × Outcome :=
  if s.speechService = true then (s, Outcome.resolved true)
  else (s, Outcome.rejected "SERVICE_NOT_ACTIVE")

/-- Kotlin `isListening` command: resolves the flag. -/
def isListeningCmd (s : ModuleState) : Outcome :=
  Outcome.resolved s.isListening

/-- Kotlin `getSampleRate`: resolves the stored sample rate. -/
def getSampleRate (s : ModuleState) : ℚ := s.sampleRate

/-- `java.io.FileInputStream.skip(n)` on a regular file seeks by `n` bytes
and reports `n`; it is documented to be allowed to skip past the end of the
file without error, so it does not truncate at EOF. -/
def fileSkip (n : Nat) (_bytes : List Nat) : Nat := n

/-- Modelled from the spec: `org.vosk.android.SpeechStreamService` (the
streaming service that `recognizeFile` starts) is external library code not
present in this repository; per the spec's FileRecognitionController, it
streams the remaining PCM payload through `acceptWaveform` in chunks, then
calls `finalResult()` and the listener emits one `onFinalResult` whose text
is the engine's final hypothesis (an engine oracle here). -/
def streamServiceRun (finalText : String) (_payload : List Nat) :
    List VoskEvent :=
  [VoskEvent.onFinalResult finalText]

/-- Result of the Android `recognizeFile` command: new state, promise
outcome, events delivered for this file, and the byte stream handed to the
streaming service (empty when no service was started). -/
structure FileRunResult where
  state : ModuleState
  outcome : Outcome
  events : List VoskEvent
  streamInput : List Nat
deriving DecidableEq

/-- Kotlin `recognizeFile`: guard on `isModelInitialized`; reject
`FILE_NOT_FOUND` when the file does not exist (filesystem oracle
`fileFound`, with `bytes` the file's contents); otherwise stop any previous
stream service, reject `RECOGNIZER_NULL` on a null recognizer, skip the
44-byte WAV header and start the streaming service on the rest. -/
def recognizeFile (_filePath : String) (fileFound : Bool) (bytes : List Nat)
    (finalText : String) (s : ModuleState) : FileRunResult :=
  if s.isModelInitialized = false then
    ⟨s, Outcome.rejected "MODEL_NOT_INITIALIZED", [], []⟩
  else if fileFound = false then
    ⟨s, Outcome.rejected "FILE_NOT_FOUND", [], []⟩
  else
    let s1 := { s with speechStreamService := false }
    if s1.recognizer = false then
      ⟨s1, Outcome.rejected "RECOGNIZER_NULL", [], []⟩
    else if fileSkip 44 bytes ≠ 44 then
      ⟨s1, Outcome.rejected "INVALID_FILE", [], []⟩
    else
      ⟨{ s1 with speechStreamService := true }, Outcome.resolved true,
        streamServiceRun finalText (bytes.drop 44), bytes.drop 44⟩

/-- One serialized bridge command together with its external-oracle
inputs, for reasoning about command traces. -/
inductive Step where
  | sInit (config : VoskConfig) (load : LoadOutcome)
  | sRelease
  | sStart (perm engineOk : Bool)
  | sStop
  | sPause (paused : Bool)
  | sFile (filePath : String) (fileFound : Bool) (bytes : List Nat)
      (finalText : String)
deriving DecidableEq

/-- Execute one command on the module state. -/
def step (s : ModuleState) : Step → ModuleState × Outcome
  | Step.sInit config load => initModel config load s
  | Step.sRelease => releaseModel s
  | Step.sStart perm engineOk => startListening perm engineOk s
  | Step.sStop => stopListening s
  | Step.sPause paused => setPause paused s
  | Step.sFile filePath fileFound bytes finalText =>
    let r := recognizeFile filePath fileFound bytes finalText s
    (r.state, r.outcome)

/-- Run a command trace from a given state. -/
def runFrom (s : ModuleState) : List Step → ModuleState
  | [] => s
  | st :: r => runFrom (step s st).1 r

/-- Run a command trace from the initial module state. -/
def run (t : List Step) : ModuleState := runFrom initialState t

/-- Whether an `initModel` call with this config and load outcome resolves
successfully: the model path is non-null and non-empty and the model loads
either directly or from the unpacked assets. -/
def initSucceeds (config : VoskConfig) (load : LoadOutcome) : Bool :=
  !(isNullOrEmpty config.modelPath) &&
    (match load with
      | LoadOutcome.success => true
      | LoadOutcome.unpackSuccess => true
      | _ => false)

/-- Flag transformer: a successful `initModel` clears "no successful init
since the last release", `releaseModel` re-establishes it, everything else
preserves it. -/
def updFlag (b : Bool) : Step → Bool
  | Step.sInit config load => if initSucceeds config load then false else b
  | Step.sRelease => true
  | _ => b

/-- Fold `updFlag` over a trace. -/
def flagFrom (b : Bool) : List Step → Bool
  | [] => b
  | st :: r => flagFrom (updFlag b st) r

/-- The trace predicate of claim C5: no successful `initModel` has occurred
since the last `releaseModel` (or since the start of the trace when no
release occurred). -/
def noInitSinceRelease (t : List Step) : Bool := flagFrom true t

/-- The listening value dictated by the most recently completed transition:
a resolved `startListening` sets it; a `startListening` that failed during
session setup (a rejection other than the `MODEL_NOT_INITIALIZED` /
`PERMISSION_DENIED` guard rejections, which return before touching any
state) clears it; `stopListening` and `releaseModel` clear it; `setPause`,
`initModel` and `recognizeFile` do not transition the listening state. -/
def nextListening (b : Bool) (o : Outcome) : Step → Bool
  | Step.sStart _ _ =>
    match o with
    | Outcome.resolved _ => true
    | Outcome.rejected c =>
      if c = "MODEL_NOT_INITIALIZED" ∨ c = "PERMISSION_DENIED" then b
      else false
  | Step.sStop => false
  | Step.sRelease => false
  | Step.sPause _ => b
  | Step.sInit _ _ => b
  | Step.sFile _ _ _ _ => b

/-- Fold `nextListening` over a trace, running the machine alongside to
obtain each command's outcome. -/
def listenSpecFrom (s : ModuleState) (b : Bool) : List Step → Bool
  | [] => b
  | st :: r =>
    listenSpecFrom (step s st).1 (nextListening b (step s st).2 st) r

/-- The listening value dictated by the transitions of a trace run from the
initial state. -/
def listenSpec (t : List Step) : Bool := listenSpecFrom initialState false t

end Android

namespace Ios

/-- State of the iOS `VoiceVosk` module: the Vosk handles and the audio
engine are modelled as presence flags, plus the module's flags, sample rate
and the boundary-detector fields. -/
structure ModuleState where
  model : Bool
  recognizer : Bool
  isModelInitialized : Bool
  isListening : Bool
  sampleRate : ℚ
  audioEngine : Bool
  boundary : BoundaryState
deriving DecidableEq

/-- Initial field values set in `init`: handles null, flags NO, sample rate
16000. -/
def initialState : ModuleState :=
  { model := false, recognizer := false, isModelInitialized := false,
    isListening := false, sampleRate := 16000, audioEngine := false,
    boundary := ⟨false, none⟩ }

/-- Objective-C `processAudioBuffer:withConverter:`, the live audio tap
callback.  `convertOk` is the converter oracle (`AVAudioConverter` status
and error), `converted` the converted 16-bit chunk, `boundaryReached` the
result of `vosk_recognizer_accept_waveform`, and `resultText` /
`partialText` the engine's parsed result and partial hypotheses.  Returns
the new state, the events emitted, and the chunks fed to `acceptWaveform`.
A tap callback has no promise to resolve or reject, hence no outcome. -/
def processAudioBuffer (convertOk : Bool) (converted : List Int)
    (boundaryReached : Bool) (resultText partialText : String)
    (s : ModuleState) : ModuleState × List VoskEvent × List (List Int) :=
  if s.recognizer = false then (s, [], [])
  else if convertOk = false then (s, [], [])
  else if boundaryReached = true then
    (s, [VoskEvent.onResult resultText], [converted])
  else
    let u := updateBoundary s.boundary partialText
    ({ s with boundary := u.1 },
      u.2 ++ [VoskEvent.onPartialResult partialText], [converted])

/-- Objective-C `processFileBuffer:withConverter:`: convert the whole file
buffer; on converter failure return without feeding or emitting anything;
otherwise feed the converted buffer to `acceptWaveform`, fetch
`vosk_recognizer_final_result` (engine oracle `finalText`) and emit
`onFinalResult`. -/
def processFileBuffer (convertOk : Bool) (converted : List Int)
    (finalText : String) (s : ModuleState) :
    List VoskEvent × List (List Int) :=
  if s.recognizer = false then ([], [])
  else if convertOk = false then ([], [])
  else ([VoskEvent.onFinalResult finalText], [converted])

/-- Result of the iOS `recognizeFile` command: new state, promise outcome,
events emitted, and the chunks fed to `acceptWaveform`. -/
structure FileRunResult where
  state : ModuleState
  outcome : Outcome
  events : List VoskEvent
  fed : List (List Int)
deriving DecidableEq

/-- Objective-C `recognizeFile:`: guard on `isModelInitialized`; reject
`FILE_NOT_FOUND` when the filesystem oracle says the file is missing;
`AVAudioFile` opening, which parses the audio file's header (`openOk`),
fails with `INVALID_FILE`; reading the frames (`readOk`) fails with
`FILE_READ_ERROR`; otherwise run `processFileBuffer` on the file's PCM
payload and resolve true. -/
def recognizeFile (fileFound openOk readOk convertOk : Bool)
    (converted : List Int) (finalText : String) (s : ModuleState) :
    FileRunResult :=
  if s.isModelInitialized = false then
    ⟨s, Outcome.rejected "MODEL_NOT_INITIALIZED", [], []⟩
  else if fileFound = false then
    ⟨s, Outcome.rejected "FILE_NOT_FOUND", [], []⟩
  else if openOk = false then
    ⟨s, Outcome.rejected "INVALID_FILE", [], []⟩
  else if readOk = false then
    ⟨s, Outcome.rejected "FILE_READ_ERROR", [], []⟩
  else
    let r := processFileBuffer convertOk converted finalText s
    ⟨s, Outcome.resolved true, r.1, r.2⟩

end Ios

/-- An Android module state with a model and recognizer successfully
initialized and no session running. -/
def androidReadyState : Android.ModuleState :=
  { Android.initialState with model := true, recognizer := true,
                              isModelInitialized := true }

/-- An iOS module state with a model and recognizer successfully initialized
and no session running. -/
def iosReadyState : Ios.ModuleState :=
  { Ios.initialState with model := true, recognizer := true,
                          isModelInitialized := true }

/-- Claim C1 (counterexample): on Android, with the detector not in the
speaking state and the non-empty partial text " " (a single space), the
update emits no `onSpeechStart` and leaves `speechStartDetected` false,
because the Kotlin code tests blankness, not emptiness.  The claim requires
`onSpeechStart` here. -/
theorem c1_android_blank_counterexample :
    (" " : String) ≠ "" ∧
    Android.updateBoundary ⟨false, none⟩ " " = (⟨false, some " "⟩, []) := by
  constructor
  · decide
  · decide

/-- Claim C1 (amended): in every call, the Android boundary update follows
the claimed if / else-if / else structure with "non-empty"/"empty" read as
non-blank/blank (whitespace-only text counts as empty), the iOS boundary
update follows it with "non-empty"/"empty" read as non-zero length / zero
length, and both unconditionally store the partial text as
`lastPartialResult` afterwards. -/
theorem c1_boundary_update_characterization (st : BoundaryState) (p : String) :
    Android.updateBoundary st p = boundarySpecAndroid st p ∧
    Ios.updateBoundary st p = boundarySpecIos st p := by
  obtain ⟨sp, l⟩ := st
  constructor
  · cases sp <;>
      simp only [Android.updateBoundary, Android.detectSpeechStart,
        Android.detectSpeechEnd, boundarySpecAndroid] <;>
      rcases hb : kotlinIsBlank p <;>
      rcases hl : lastNotBlank ⟨_, l⟩ <;>
      simp [hb, hl]
  · cases sp <;>
      simp only [Ios.updateBoundary, Ios.detectSpeechStart,
        Ios.detectSpeechEnd, boundarySpecIos] <;>
      rcases hn : nsLength p <;>
      rcases hl : nsLengthOpt l <;>
      simp [hn, hl]

/-- Claim C2: from a freshly reset boundary detector state, the partial
sequence ["", "hel", "hello", "hello world", ""] produces exactly one
`onSpeechStart`, at the element "hel", exactly one `onSpeechEnd`, at the
trailing "", and no other boundary events — on both platforms. -/
theorem c2_boundary_sequence :
    Android.runPartials ⟨false, none⟩ ["", "hel", "hello", "hello world", ""] =
      [[], [VoskEvent.onSpeechStart], [], [], [VoskEvent.onSpeechEnd]] ∧
    Ios.runPartials ⟨false, none⟩ ["", "hel", "hello", "hello world", ""] =
      [[], [VoskEvent.onSpeechStart], [], [], [VoskEvent.onSpeechEnd]] := by
  constructor
  · decide
  · decide

/-- Claim C3 (counterexample): after a successful `initModel` with path "m",
calling `initModel` with the empty model path rejects with the config error
`INVALID_MODEL_PATH`, but a subsequent `isModelInitialized()` query resolves
true, not false as the claim requires: the empty-path check runs before the
cleanup that clears the flag. -/
theorem c3_empty_path_keeps_initialized_counterexample :
    (Android.initModel ⟨some "", none, none⟩ Android.LoadOutcome.success
        (Android.initModel ⟨some "m", none, none⟩ Android.LoadOutcome.success
          Android.initialState).1).2 = Outcome.rejected "INVALID_MODEL_PATH" ∧
    Android.isModelInitializedCmd
        (Android.initModel ⟨some "", none, none⟩ Android.LoadOutcome.success
          (Android.initModel ⟨some "m", none, none⟩ Android.LoadOutcome.success
            Android.initialState).1).1 = Outcome.resolved true := by
  constructor
  · decide
  · decide

/-- Claim C3 (amended): for every state and every config whose model path is
null or empty, `initModel` rejects with the config error
`INVALID_MODEL_PATH` and leaves `isModelInitialized` unchanged — in
particular, whenever no model is initialized beforehand (such as the initial
state), a subsequent `isModelInitialized()` query still resolves false. -/
theorem c3_empty_path_rejects (s : Android.ModuleState) (config : VoskConfig)
    (load : Android.LoadOutcome)
    (h : isNullOrEmpty config.modelPath = true) :
    (Android.initModel config load s).2 =
      Outcome.rejected "INVALID_MODEL_PATH" ∧
    (Android.initModel config load s).1.isModelInitialized =
      s.isModelInitialized := by
  unfold Android.initModel
  rcases config with ⟨mp, sr, g⟩
  simp only at h
  rcases sr with _ | r <;> simp [h]

/-- Claim C3 witness: from the initial state, `initModel` with modelPath ""
rejects with `INVALID_MODEL_PATH` and `isModelInitialized` stays false. -/
theorem c3_empty_path_rejects_witness :
    (Android.initModel ⟨some "", some 8000, none⟩
        Android.LoadOutcome.success Android.initialState).2 =
      Outcome.rejected "INVALID_MODEL_PATH" ∧
    (Android.initModel ⟨some "", some 8000, none⟩
        Android.LoadOutcome.success Android.initialState).1.isModelInitialized
      = Android.initialState.isModelInitialized :=
  c3_empty_path_rejects Android.initialState ⟨some "", some 8000, none⟩
    Android.LoadOutcome.success (by decide)

/-- Claim C4: `releaseModel` is idempotent — from every state the first call
resolves true, a second call immediately after also resolves true, and the
second call leaves the state exactly where the first call left it. -/
theorem c4_release_model_idempotent (s : Android.ModuleState) :
    (Android.releaseModel s).2 = Outcome.resolved true ∧
    (Android.releaseModel (Android.releaseModel s).1).2 =
      Outcome.resolved true ∧
    (Android.releaseModel (Android.releaseModel s).1).1 =
      (Android.releaseModel s).1 := by
  simp [Android.releaseModel, Android.stopListeningInternal]

/-- Claim C10: on Android, `initModel` with an empty model path together with
a sample-rate value rejects with the model-path config error, yet the stored
sample rate has already been overwritten, so a subsequent `getSampleRate()`
returns the value from the failed call — the failed `initModel` is not
atomic with respect to the sample-rate field. -/
theorem c10_failed_init_overwrites_sample_rate (s : Android.ModuleState)
    (load : Android.LoadOutcome) (r : ℚ) (g : Option String) :
    (Android.initModel ⟨some "", some r, g⟩ load s).2 =
      Outcome.rejected "INVALID_MODEL_PATH" ∧
    Android.getSampleRate (Android.initModel ⟨some "", some r, g⟩ load s).1
      = r := by
  simp [Android.initModel, Android.getSampleRate, isNullOrEmpty]

/-- Helper: one command preserves "model uninitialized and not listening" as
tracked by `updFlag`. -/
theorem step_preserves_uninit (s : Android.ModuleState) (b : Bool)
    (st : Android.Step)
    (hb : b = true → s.isModelInitialized = false ∧ s.isListening = false)
    (hf : Android.updFlag b st = true) :
    (Android.step s st).1.isModelInitialized = false ∧
    (Android.step s st).1.isListening = false := by
  cases st with
  | sInit config load =>
    obtain ⟨mp, sr, g⟩ := config
    rcases hmp : isNullOrEmpty mp with _ | _
    · cases load <;>
        simp [Android.updFlag, Android.initSucceeds, hmp] at hf <;>
        rcases sr with _ | r <;>
        simp [Android.step, Android.initModel, hmp, hb hf]
    · simp [Android.updFlag, Android.initSucceeds, hmp] at hf
      obtain ⟨h1, h2⟩ := hb hf
      rcases sr with _ | r <;>
        simp [Android.step, Android.initModel, hmp, h1, h2]
  | sRelease =>
    simp [Android.step, Android.releaseModel, Android.stopListeningInternal]
  | sStart perm engineOk =>
    simp [Android.updFlag] at hf
    obtain ⟨h1, h2⟩ := hb hf
    simp [Android.step, Android.startListening, h1, h2]
  | sStop =>
    simp [Android.updFlag] at hf
    obtain ⟨h1, h2⟩ := hb hf
    simp [Android.step, Android.stopListening, Android.stopListeningInternal,
      h1]
  | sPause paused =>
    simp [Android.updFlag] at hf
    obtain ⟨h1, h2⟩ := hb hf
    by_cases hs : s.speechService = true <;>
      simp [Android.step, Android.setPause, hs, h1, h2]
  | sFile filePath fileFound bytes finalText =>
    simp [Android.updFlag] at hf
    obtain ⟨h1, h2⟩ := hb hf
    simp [Android.step, Android.recognizeFile, h1, h2]

/-- Helper: along any trace with no successful `initModel` since the last
`releaseModel`, the model stays uninitialized and the module stays not
listening. -/
theorem runFrom_uninit : ∀ (t : List Android.Step) (s : Android.ModuleState)
    (b : Bool),
    (b = true → s.isModelInitialized = false ∧ s.isListening = false) →
    Android.flagFrom b t = true →
    (Android.runFrom s t).isModelInitialized = false ∧
    (Android.runFrom s t).isListening = false
  | [], _, _, hb, hf => hb (by simpa [Android.flagFrom] using hf)
  | st :: r, s, b, hb, hf =>
    runFrom_uninit r (Android.step s st).1 (Android.updFlag b st)
      (fun h => step_preserves_uninit s b st hb h)
      (by simpa [Android.flagFrom] using hf)

/-- Claim C5: in every state reached by a command trace in which no
successful `initModel` has occurred since the last `releaseModel` (including
the initial state, where the trace is empty), `isListening()` resolves
false, `startListening` rejects with `MODEL_NOT_INITIALIZED` for every
permission and engine oracle, and `isListening()` still resolves false
afterwards. -/
theorem c5_start_requires_model (t : List Android.Step) (perm engineOk : Bool)
    (h : Android.noInitSinceRelease t = true) :
    Android.isListeningCmd (Android.run t) = Outcome.resolved false ∧
    (Android.startListening perm engineOk (Android.run t)).2 =
      Outcome.rejected "MODEL_NOT_INITIALIZED" ∧
    Android.isListeningCmd
        (Android.startListening perm engineOk (Android.run t)).1 =
      Outcome.resolved false := by
  obtain ⟨h1, h2⟩ := runFrom_uninit t Android.initialState true
    (fun _ => ⟨rfl, rfl⟩) h
  refine ⟨?_, ?_, ?_⟩ <;>
    simp [Android.run, Android.isListeningCmd, Android.startListening, h1, h2]

/-- Claim C5 witness: after the trace "successful initModel, then
releaseModel", startListening rejects with MODEL_NOT_INITIALIZED and
isListening resolves false before and after. -/
theorem c5_start_requires_model_witness :
    Android.isListeningCmd
        (Android.run [Android.Step.sInit ⟨some "m", none, none⟩
          Android.LoadOutcome.success, Android.Step.sRelease]) =
      Outcome.resolved false ∧
    (Android.startListening true true
        (Android.run [Android.Step.sInit ⟨some "m", none, none⟩
          Android.LoadOutcome.success, Android.Step.sRelease])).2 =
      Outcome.rejected "MODEL_NOT_INITIALIZED" ∧
    Android.isListeningCmd
        (Android.startListening true true
          (Android.run [Android.Step.sInit ⟨some "m", none, none⟩
            Android.LoadOutcome.success, Android.Step.sRelease])).1 =
      Outcome.resolved false :=
  c5_start_requires_model
    [Android.Step.sInit ⟨some "m", none, none⟩ Android.LoadOutcome.success,
      Android.Step.sRelease] true true (by decide)

/-- Helper: each command moves `isListening` exactly as dictated by
`nextListening` applied to the command's outcome. -/
theorem step_listening (s : Android.ModuleState) (st : Android.Step) :
    (Android.step s st).1.isListening =
      Android.nextListening s.isListening (Android.step s st).2 st := by
  cases st with
  | sInit config load =>
    obtain ⟨mp, sr, g⟩ := config
    rcases hmp : isNullOrEmpty mp with _ | _ <;>
      cases load <;> rcases sr with _ | r <;>
      simp [Android.step, Android.initModel, Android.nextListening, hmp]
  | sRelease =>
    simp [Android.step, Android.releaseModel, Android.stopListeningInternal,
      Android.nextListening]
  | sStart perm engineOk =>
    rcases hi : s.isModelInitialized with _ | _
    · simp [Android.step, Android.startListening, Android.nextListening, hi]
    · rcases hp : perm with _ | _
      · simp [Android.step, Android.startListening, Android.nextListening,
          hi, hp]
      · rcases hr : s.recognizer with _ | _ <;>
          rcases he : engineOk with _ | _ <;>
          simp [Android.step, Android.startListening,
            Android.stopListeningInternal, Android.nextListening, hi, hp,
            hr, he]
  | sStop =>
    simp [Android.step, Android.stopListening, Android.stopListeningInternal,
      Android.nextListening]
  | sPause paused =>
    by_cases hs : s.speechService = true <;>
      simp [Android.step, Android.setPause, Android.nextListening, hs]
  | sFile filePath fileFound bytes finalText =>
    rcases hi : s.isModelInitialized with _ | _ <;>
      rcases hf : fileFound with _ | _ <;>
      rcases hr : s.recognizer with _ | _ <;>
      simp [Android.step, Android.recognizeFile, Android.nextListening,
        Android.fileSkip, hi, hf, hr]

/-- Helper: along any trace, `isListening` equals the fold of
`nextListening` over the commands' outcomes. -/
theorem runFrom_listening : ∀ (t : List Android.Step)
    (s : Android.ModuleState) (b : Bool), s.isListening = b →
    (Android.runFrom s t).isListening = Android.listenSpecFrom s b t
  | [], _, _, hb => hb
  | st :: r, s, b, hb =>
    runFrom_listening r (Android.step s st).1
      (Android.nextListening b (Android.step s st).2 st)
      (hb ▸ step_listening s st)

/-- Claim C6: first, from every state with an initialized model and
recognizer, a `startListening` whose audio-engine start fails rejects with
`START_LISTENING_ERROR` and leaves `isListening()` false with the model and
recognizer still initialized (the session remains Ready, and no stale
listening flag survives the failed call); second, after every command trace,
`isListening()` equals exactly the value dictated by the most recently
completed start/stop/release transition (`listenSpec`). -/
theorem c6_listening_reflects_transitions (s : Android.ModuleState)
    (t : List Android.Step) (hInit : s.isModelInitialized = true)
    (hRec : s.recognizer = true) :
    ((Android.startListening true false s).2 =
        Outcome.rejected "START_LISTENING_ERROR" ∧
      (Android.startListening true false s).1.isListening = false ∧
      (Android.startListening true false s).1.isModelInitialized = true ∧
      (Android.startListening true false s).1.recognizer = true ∧
      (Android.startListening true false s).1.model = s.model) ∧
    (Android.run t).isListening = Android.listenSpec t := by
  constructor
  · simp [Android.startListening, Android.stopListeningInternal, hInit, hRec]
  · exact runFrom_listening t Android.initialState false rfl

/-- Claim C6 witness: from a ready state that is (stale-)listening, the
engine-failure `startListening` rejects and clears `isListening`, and the
trace "failed init, successful start, stop" ends not listening as
`listenSpec` dictates. -/
theorem c6_listening_reflects_transitions_witness :
    ((Android.startListening true false
        { androidReadyState with isListening := true,
                                 speechService := true }).2 =
        Outcome.rejected "START_LISTENING_ERROR" ∧
      (Android.startListening true false
        { androidReadyState with isListening := true,
                                 speechService := true }).1.isListening =
        false ∧
      (Android.startListening true false
        { androidReadyState with isListening := true,
                                 speechService := true
        }).1.isModelInitialized = true ∧
      (Android.startListening true false
        { androidReadyState with isListening := true,
                                 speechService := true }).1.recognizer =
        true ∧
      (Android.startListening true false
        { androidReadyState with isListening := true,
                                 speechService := true }).1.model =
        ({ androidReadyState with isListening := true,
                                  speechService := true
         } : Android.ModuleState).model) ∧
    (Android.run [Android.Step.sInit ⟨some "m", none, none⟩
        Android.LoadOutcome.success,
      Android.Step.sStart true true, Android.Step.sStop]).isListening =
      Android.listenSpec [Android.Step.sInit ⟨some "m", none, none⟩
        Android.LoadOutcome.success,
        Android.Step.sStart true true, Android.Step.sStop] :=
  c6_listening_reflects_transitions
    { androidReadyState with isListening := true, speechService := true }
    [Android.Step.sInit ⟨some "m", none, none⟩ Android.LoadOutcome.success,
      Android.Step.sStart true true, Android.Step.sStop] rfl rfl

/-- Claim C7: with the model initialized, `recognizeFile` on a path whose
file does not exist rejects with `FILE_NOT_FOUND`, leaves the module state
untouched, emits no event at all (in particular no `onFinalResult`) and
hands nothing to the streaming service. -/
theorem c7_missing_file_rejects (s : Android.ModuleState)
    (filePath finalText : String) (bytes : List Nat)
    (h : s.isModelInitialized = true) :
    Android.recognizeFile filePath false bytes finalText s =
      ⟨s, Outcome.rejected "FILE_NOT_FOUND", [], []⟩ := by
  simp [Android.recognizeFile, h]

/-- Claim C7 witness: in the ready state, recognizing a nonexistent file
rejects with FILE_NOT_FOUND and emits nothing. -/
theorem c7_missing_file_rejects_witness :
    Android.recognizeFile "/nonexistent" false [1, 2, 3] "t"
        androidReadyState =
      ⟨androidReadyState, Outcome.rejected "FILE_NOT_FOUND", [], []⟩ :=
  c7_missing_file_rejects androidReadyState "/nonexistent" "t" [1, 2, 3] rfl

/-- Claim C8 (counterexample): on iOS, with the model initialized and an
existing audio file that opens and reads successfully, a format-conversion
failure makes `recognizeFile` resolve true while feeding nothing to
`acceptWaveform` and emitting no `onFinalResult` — contradicting the claim
that every existing audio file leads to streaming plus one `onFinalResult`
emission. -/
theorem c8_conversion_failure_counterexample :
    Ios.recognizeFile true true true false [7] "t" iosReadyState =
      ⟨iosReadyState, Outcome.resolved true, [], []⟩ := by
  decide

/-- Claim C8 (amended): with an initialized model and recognizer, for every
existing audio file that the platform can open, read and format-convert,
`recognizeFile` skips or parses the file's fixed-size header and streams the
remaining PCM payload through `acceptWaveform` (on Android, the 44-byte WAV
header is skipped and the rest handed to the streaming service; on iOS, the
header is parsed by the audio-file reader and the converted payload is fed
as a single chunk), then `finalResult()` is fetched and exactly one
`onFinalResult` is emitted.  When conversion fails, the call still resolves
but nothing is fed and no `onFinalResult` is emitted. -/
theorem c8_recognize_file_streams (sA : Android.ModuleState)
    (sI : Ios.ModuleState) (filePath finalText : String) (bytes : List Nat)
    (converted : List Int) (hA1 : sA.isModelInitialized = true)
    (hA2 : sA.recognizer = true) (hI1 : sI.isModelInitialized = true)
    (hI2 : sI.recognizer = true) :
    Android.recognizeFile filePath true bytes finalText sA =
      ⟨{ sA with speechStreamService := true }, Outcome.resolved true,
        [VoskEvent.onFinalResult finalText], bytes.drop 44⟩ ∧
    Ios.recognizeFile true true true true converted finalText sI =
      ⟨sI, Outcome.resolved true, [VoskEvent.onFinalResult finalText],
        [converted]⟩ := by
  constructor
  · simp [Android.recognizeFile, Android.fileSkip, Android.streamServiceRun,
      hA1, hA2]
  · simp [Ios.recognizeFile, Ios.processFileBuffer, hI1, hI2]

/-- Claim C8 witness: in the ready states, a 50-byte existing file is
streamed from byte 44 on Android with one onFinalResult, and on iOS the
converted payload is fed as one chunk with one onFinalResult. -/
theorem c8_recognize_file_streams_witness :
    Android.recognizeFile "/a.wav" true (List.range 50) "hi"
        androidReadyState =
      ⟨{ androidReadyState with speechStreamService := true },
        Outcome.resolved true, [VoskEvent.onFinalResult "hi"],
        (List.range 50).drop 44⟩ ∧
    Ios.recognizeFile true true true true [5] "hi" iosReadyState =
      ⟨iosReadyState, Outcome.resolved true,
        [VoskEvent.onFinalResult "hi"], [[5]]⟩ :=
  c8_recognize_file_streams androidReadyState iosReadyState "/a.wav" "hi"
    (List.range 50) [5] rfl rfl rfl rfl

/-- Claim C9: during an active live session, a per-chunk format-conversion
failure in the audio tap callback drops that chunk: nothing is fed to
`acceptWaveform`, no event is emitted, and the module state (in particular
the running session) is unchanged.  The tap callback has no promise, so no
error can reach any command caller. -/
theorem c9_conversion_failure_drops_chunk (s : Ios.ModuleState)
    (converted : List Int) (boundaryReached : Bool)
    (resultText partialText : String) (_h : s.isListening = true) :
    Ios.processAudioBuffer false converted boundaryReached resultText
        partialText s = (s, [], []) := by
  by_cases hr : s.recognizer = false <;>
    simp [Ios.processAudioBuffer, hr]

/-- Claim C9 witness: in a listening ready state, a conversion-failed chunk
is dropped with no state change and no events. -/
theorem c9_conversion_failure_drops_chunk_witness :
    Ios.processAudioBuffer false [3] false "r" "p"
        { iosReadyState with isListening := true, audioEngine := true } =
      ({ iosReadyState with isListening := true, audioEngine := true },
        [], []) :=
  c9_conversion_failure_drops_chunk
    { iosReadyState with isListening := true, audioEngine := true }
    [3] false "r" "p" rfl

end VoiceVosk
